import Mathlib

/-!
Shallow embedding of the inference pipeline of the repository:
`src/lib/ml-models.ts` (class `MLModelManager`: `loadModels`, `predict`,
`getLoadingState`) and `src/lib/image-processing.ts`
(`ImageProcessor.processImageElement`).

Modelling choices:
- Numeric values read back from tensors are modelled over `ℚ`; JavaScript
  `Math.round` is `⌊x + 1/2⌋` (round half toward positive infinity).
- Tensor buffers are modelled by explicit alloc/free event traces, so the
  disposal discipline of `predict` is visible as a list of `Event`s.
- Steps of the code that can throw (engine init, model construction, warm-up
  forward passes, reading data back from a tensor) are modelled by a failure
  parameter selecting which step, if any, throws.
- JavaScript is single threaded: an observer polling `getModelLoadingState`
  can only run at the `await` boundaries of `loadModels`.  `loadModels`
  therefore returns, together with the final manager, the list of
  `ModelLoadingState` snapshots observable at those boundaries (and the final
  state); mutations between two awaits happen in one synchronous block and
  are never observable individually.
-/

namespace MLModels

/-- A `tf.LayersModel` handle; we track only whether it has been disposed. -/
structure ModelHandle where
  disposed : Bool
deriving DecidableEq, Repr

/-- The `ModelLoadingState` record of `ml-models.ts` (lines 11-16). -/
structure ModelLoadingState where
  isLoading : Bool
  isLoaded : Bool
  error : Option String
  progress : ℕ
deriving DecidableEq, Repr

/-- The private fields of `MLModelManager` (lines 21-29). -/
structure Manager where
  ageModel : Option ModelHandle
  genderModel : Option ModelHandle
  isInitialized : Bool
  loadingState : ModelLoadingState
deriving DecidableEq, Repr

/-- The manager as constructed at module load (lines 21-29, 208). -/
def initManager : Manager :=
  { ageModel := none, genderModel := none, isInitialized := false,
    loadingState :=
      { isLoading := false, isLoaded := false, error := none, progress := 0 } }

/-- `getLoadingState` (lines 190-192): returns a copy of the current state. -/
def getLoadingState (m : Manager) : ModelLoadingState := m.loadingState

/-- The steps of `loadModels` that can throw: `tf.ready()` (line 40),
`createAgeModel` (line 45), `createGenderModel` (line 48), and the two warm-up
forward passes (lines 53-54). -/
inductive LoadFail
  | atTfReady
  | atCreateAge
  | atCreateGender
  | atWarmupAge
  | atWarmupGender
deriving DecidableEq, Repr

/-- `loadModels` (lines 31-66).  `fail` selects which step, if any, throws,
and `msg` is the thrown error message.  Returns the manager after the call
together with the `ModelLoadingState` snapshots observable at the `await`
boundaries and at completion:
- the state set by lines 34-36 is observable while `await tf.ready()` (line
  40) is pending;
- lines 41-52 run synchronously, so the `progress = 20` and `progress = 60`
  checkpoints are overwritten before any observer can run; the state with
  `progress = 90` is observable while each warm-up `await` (lines 53-54) is
  pending;
- the `catch`/`finally` blocks (lines 60-65) and the success epilogue (lines
  55-59 plus `finally`) run synchronously, so only their final result is
  observable. -/
def loadModels (m : Manager) (fail : Option LoadFail) (msg : String) :
    Manager × List ModelLoadingState :=
  -- line 32: if (this.isInitialized) return;
  if m.isInitialized then (m, [])
  else
    -- lines 34-36: isLoading := true, error := null, progress := 0
    let sA : ModelLoadingState :=
      { m.loadingState with isLoading := true, error := none, progress := 0 }
    -- line 40: await tf.ready()
    if fail = some .atTfReady then
      let sE := { sA with error := some msg, isLoading := false }
      ({ m with loadingState := sE }, [sA, sE])
    else
      -- line 41: progress := 20
      let s20 := { sA with progress := 20 }
      -- line 45: this.ageModel = this.createAgeModel()
      if fail = some .atCreateAge then
        let sE := { s20 with error := some msg, isLoading := false }
        ({ m with loadingState := sE }, [sA, sE])
      else
        let m1 := { m with ageModel := some { disposed := false } }
        -- line 46: progress := 60
        let s60 := { s20 with progress := 60 }
        -- line 48: this.genderModel = this.createGenderModel()
        if fail = some .atCreateGender then
          let sE := { s60 with error := some msg, isLoading := false }
          ({ m1 with loadingState := sE }, [sA, sE])
        else
          let m2 := { m1 with genderModel := some { disposed := false } }
          -- line 49: progress := 90
          let s90 := { s60 with progress := 90 }
          -- line 53: await this.ageModel.predict(dummyInput)
          if fail = some .atWarmupAge then
            let sE := { s90 with error := some msg, isLoading := false }
            ({ m2 with loadingState := sE }, [sA, s90, sE])
          else
            -- line 54: await this.genderModel.predict(dummyInput)
            if fail = some .atWarmupGender then
              let sE := { s90 with error := some msg, isLoading := false }
              ({ m2 with loadingState := sE }, [sA, s90, s90, sE])
            else
              -- lines 55-59 and finally: dispose dummy, progress := 100,
              -- isLoaded := true, isInitialized := true, isLoading := false
              let sDone :=
                { s90 with progress := 100, isLoaded := true, isLoading := false }
              ({ m2 with loadingState := sDone, isInitialized := true },
               [sA, s90, s90, sDone])

/-- The readiness predicate of the registry: the negation of the guard on
line 133 of `predict`. -/
def isReady (m : Manager) : Bool :=
  m.isInitialized && m.ageModel.isSome && m.genderModel.isSome

/-- The three tensor buffers `predict` is responsible for: the preprocessed
input (line 138), the age forward-pass output (line 142) and the gender
forward-pass output (line 147).  Intermediates inside `preprocessImage` live
in a `tf.tidy` scope (lines 173-187) and are reclaimed by `tidy` itself, so
they are not tracked. -/
inductive BufId
  | preprocessed
  | ageOut
  | genderOut
deriving DecidableEq, Repr

/-- A buffer lifecycle event: tensor creation or a `dispose()` call. -/
inductive Event
  | alloc (b : BufId)
  | free (b : BufId)
deriving DecidableEq, Repr

/-- The steps of `predict` that can throw: `preprocessImage` (line 138,
outside the try block), the age forward pass (line 142), `agePrediction.data()`
(line 143), the gender forward pass (line 147), and
`genderPrediction.data()` (line 148). -/
inductive PredictFail
  | atPreprocess
  | atAgeForward
  | atAgeData
  | atGenderForward
  | atGenderData
deriving DecidableEq, Repr

/-- The error message thrown by the guard on lines 133-135. -/
def notLoadedMsg : String := "Models not loaded. Call loadModels() first."

/-- JavaScript `Math.round`: round half toward positive infinity. -/
def jsRound (x : ℚ) : ℤ := ⌊x + 1/2⌋

/-- Line 144: `Math.max(0, Math.min(100, ageValue[0] * 100 + 25))`. -/
def predictedAgeQ (raw : ℚ) : ℚ := max 0 (min 100 (raw * 100 + 25))

/-- The gender labels of the `AgeGenderPrediction` interface (line 6). -/
inductive Gender
  | male
  | female
deriving DecidableEq, Repr

/-- Line 151: `maleProb > femaleProb ? 'male' : 'female'`. -/
def predictedGenderOf (maleProb femaleProb : ℚ) : Gender :=
  if maleProb > femaleProb then .male else .female

/-- Line 152: `Math.max(maleProb, femaleProb)`. -/
def genderConfidenceOf (maleProb femaleProb : ℚ) : ℚ := max maleProb femaleProb

/-- Line 162: `0.75 + Math.random() * 0.2`, with `Math.random()` modelled by
the parameter `rand`. -/
def ageConfidenceOf (rand : ℚ) : ℚ := 3/4 + rand * (1/5)

/-- The `AgeGenderPrediction` result record (lines 4-9); `age` is an integer
because line 160 applies `Math.round`. -/
structure AgeGenderPrediction where
  age : ℤ
  gender : Gender
  ageConfidence : ℚ
  genderConfidence : ℚ
deriving DecidableEq, Repr

/-- `predict` (lines 132-169).  `ageRaw` is the scalar read from the age model
(`ageValue[0]`), `maleProb`/`femaleProb` the gender probabilities
(`genderProbs[0]`, `genderProbs[1]`), `rand` the `Math.random()` draw of line
162, and `fail` selects which step, if any, throws (with message `cause`).
Returns the result together with the buffer event trace:
- guard failure (lines 133-135) throws before any buffer is created;
- a `preprocessImage` failure allocates nothing (`tf.tidy` reclaims its
  intermediates) and propagates outside the try block, unwrapped;
- inside the try block, the catch handler (lines 165-168) disposes only
  `preprocessedImage` and rethrows a wrapped error;
- on success, lines 155-157 dispose `agePrediction`, `genderPrediction`, and
  `preprocessedImage`, in that order. -/
def predict (m : Manager) (ageRaw maleProb femaleProb rand : ℚ)
    (fail : Option PredictFail) (cause : String) :
    Except String AgeGenderPrediction × List Event :=
  -- lines 133-135: readiness guard, throws before any computation
  if isReady m = false then (.error notLoadedMsg, [])
  -- line 138: const preprocessedImage = this.preprocessImage(imageData)
  else if fail = some .atPreprocess then (.error cause, [])
  else
    let e1 := [Event.alloc .preprocessed]
    -- line 142: const agePrediction = this.ageModel.predict(preprocessedImage)
    if fail = some .atAgeForward then
      (.error ("Prediction failed: " ++ cause), e1 ++ [Event.free .preprocessed])
    else
      let e2 := e1 ++ [Event.alloc .ageOut]
      -- line 143: const ageValue = await agePrediction.data()
      if fail = some .atAgeData then
        (.error ("Prediction failed: " ++ cause), e2 ++ [Event.free .preprocessed])
      -- line 147: const genderPrediction = this.genderModel.predict(...)
      else if fail = some .atGenderForward then
        (.error ("Prediction failed: " ++ cause), e2 ++ [Event.free .preprocessed])
      else
        let e3 := e2 ++ [Event.alloc .genderOut]
        -- line 148: const genderProbs = await genderPrediction.data()
        if fail = some .atGenderData then
          (.error ("Prediction failed: " ++ cause), e3 ++ [Event.free .preprocessed])
        else
          -- lines 155-164
          (.ok { age := jsRound (predictedAgeQ ageRaw),
                 gender := predictedGenderOf maleProb femaleProb,
                 ageConfidence := ageConfidenceOf rand,
                 genderConfidence := genderConfidenceOf maleProb femaleProb },
           e3 ++ [Event.free .ageOut, Event.free .genderOut,
                  Event.free .preprocessed])

/-- The probability the gender forward pass assigned to a given label. -/
def genderProbOf (maleProb femaleProb : ℚ) : Gender → ℚ
  | .male => maleProb
  | .female => femaleProb

/-- The clamp operation as the specification words it: `clamp(x, lo, hi)`
keeps `x` between `lo` and `hi`.  Declared separately from the code's
`predictedAgeQ` so the two can be compared. -/
def clampSpec (x lo hi : ℚ) : ℚ := max lo (min x hi)

/-- The manager state observable while a load started from `initManager` is
suspended at the line-53 warm-up `await`: both models constructed,
`progress = 90`, `isInitialized` not yet set (line 59 has not run). -/
def midLoadManager : Manager :=
  { ageModel := some { disposed := false },
    genderModel := some { disposed := false },
    isInitialized := false,
    loadingState :=
      { isLoading := true, isLoaded := false, error := none, progress := 90 } }

end MLModels

namespace ImageProcessor

/-- Line 60: `const targetSize = 224`. -/
def targetSize : ℚ := 224

/-- Line 68: `Math.min(targetSize / originalWidth, targetSize / originalHeight)`. -/
def scale (w0 h0 : ℚ) : ℚ := min (targetSize / w0) (targetSize / h0)

/-- Line 69: `originalWidth * scale` (not rounded). -/
def scaledWidth (w0 h0 : ℚ) : ℚ := w0 * scale w0 h0

/-- Line 70: `originalHeight * scale` (not rounded). -/
def scaledHeight (w0 h0 : ℚ) : ℚ := h0 * scale w0 h0

/-- Line 73: `(targetSize - scaledWidth) / 2` (not rounded). -/
def offsetX (w0 h0 : ℚ) : ℚ := (targetSize - scaledWidth w0 h0) / 2

/-- Line 74: `(targetSize - scaledHeight) / 2` (not rounded). -/
def offsetY (w0 h0 : ℚ) : ℚ := (targetSize - scaledHeight w0 h0) / 2

/-- An 8-bit-per-channel RGBA pixel of the canvas backing store. -/
structure RGBA where
  r : ℕ
  g : ℕ
  b : ℕ
  a : ℕ
deriving DecidableEq, Repr

/-- Line 65: `ctx.clearRect(...)` resets every pixel of the cleared rectangle
to transparent black, all four channels zero. -/
def clearedPixel : RGBA := { r := 0, g := 0, b := 0, a := 0 }

end ImageProcessor

/-!
Theorems about the embedded pipeline, one per claim, with witnesses for the
theorems that carry hypotheses.
-/

namespace MLModels

/-- C2: for any single load sequence started by `loadModels`, the progress
values an observer can sample via `getModelLoadingState` are non-decreasing,
progress reaches exactly 100 if and only if `isLoaded` becomes true, and no
observable snapshot has `isLoaded = true` with `progress < 100`.  The
hypothesis `h` holds of every reachable manager state (`isLoaded` is only
ever set together with `isInitialized`, lines 58-59). -/
theorem loadModels_progress_monotone (m : Manager) (fail : Option LoadFail)
    (msg : String)
    (h : m.loadingState.isLoaded = true → m.isInitialized = true) :
    List.Chain' (fun a b => a ≤ b)
      (((loadModels m fail msg).2).map (fun s => s.progress))
    ∧ (∀ s ∈ (loadModels m fail msg).2, s.isLoaded = true → s.progress = 100)
    ∧ ((∃ s ∈ (loadModels m fail msg).2, s.progress = 100)
        ↔ ∃ s ∈ (loadModels m fail msg).2, s.isLoaded = true) := by
  by_cases hi : m.isInitialized = true
  · simp [loadModels, hi]
  · have hb : m.loadingState.isLoaded = false := by
      cases hL : m.loadingState.isLoaded
      · rfl
      · exact absurd (h hL) hi
    have hi' : m.isInitialized = false := by
      cases hI : m.isInitialized
      · rfl
      · exact absurd hI hi
    rcases fail with _ | step
    · simp [loadModels, hi', hb]
    · cases step <;> simp [loadModels, hi', hb]

/-- Witness for C2: the monotonicity statement at the initial manager and a
successful load. -/
theorem loadModels_progress_monotone_witness :
    List.Chain' (fun a b => a ≤ b)
      (((loadModels initManager none "").2).map (fun s => s.progress))
    ∧ (∀ s ∈ (loadModels initManager none "").2,
        s.isLoaded = true → s.progress = 100)
    ∧ ((∃ s ∈ (loadModels initManager none "").2, s.progress = 100)
        ↔ ∃ s ∈ (loadModels initManager none "").2, s.isLoaded = true) :=
  loadModels_progress_monotone initManager none "" (by decide)

end MLModels

namespace MLModels

/-- C1 (code bug): when `genderPrediction.data()` (line 148) throws after both
forward passes, the catch handler (lines 165-168) disposes only
`preprocessedImage`; the age and gender output tensors are allocated but never
freed, so the error path leaks two buffers, contradicting the release-exactly-
once discipline. -/
theorem predict_leaks_on_genderData_failure :
    (predict (loadModels initManager none "").1 0 0 0 0
        (some .atGenderData) "backend error").1
      = .error "Prediction failed: backend error"
    ∧ ((predict (loadModels initManager none "").1 0 0 0 0
        (some .atGenderData) "backend error").2.count (Event.alloc .ageOut) = 1
    ∧ (predict (loadModels initManager none "").1 0 0 0 0
        (some .atGenderData) "backend error").2.count (Event.free .ageOut) = 0)
    ∧ ((predict (loadModels initManager none "").1 0 0 0 0
        (some .atGenderData) "backend error").2.count (Event.alloc .genderOut) = 1
    ∧ (predict (loadModels initManager none "").1 0 0 0 0
        (some .atGenderData) "backend error").2.count (Event.free .genderOut) = 0)
    ∧ ((predict (loadModels initManager none "").1 0 0 0 0
        (some .atGenderData) "backend error").2.count (Event.alloc .preprocessed) = 1
    ∧ (predict (loadModels initManager none "").1 0 0 0 0
        (some .atGenderData) "backend error").2.count (Event.free .preprocessed) = 1) :=
  ⟨by rfl, by decide⟩

/-- C4 counterexample: a warm-up failure (line 54 throwing) leaves both
constructed model handles present and undisposed in the manager, refuting the
claim that every handle constructed before the failure is disposed before the
error is surfaced (the catch block, lines 60-62, disposes nothing). -/
theorem loadModels_failure_retains_handles_cex :
    ((loadModels initManager (some .atWarmupGender) "warm-up failed").1.loadingState.error
        = some "warm-up failed")
    ∧ (loadModels initManager (some .atWarmupGender) "warm-up failed").1.ageModel
        = some { disposed := false }
    ∧ (loadModels initManager (some .atWarmupGender) "warm-up failed").1.genderModel
        = some { disposed := false } := by
  decide

/-- C4 amended: a failure at any step of `loadModels` captures the thrown
message in `error`, sets `isLoading` to false, leaves `isLoaded` false and
`isInitialized` false, so the registry is never ready after a failed load
(constructed handles are retained, not disposed, but `predict` never sees
them as a ready registry). -/
theorem loadModels_failure_state (step : LoadFail) (msg : String) :
    (loadModels initManager (some step) msg).1.loadingState.error = some msg
    ∧ (loadModels initManager (some step) msg).1.loadingState.isLoading = false
    ∧ (loadModels initManager (some step) msg).1.loadingState.isLoaded = false
    ∧ (loadModels initManager (some step) msg).1.isInitialized = false
    ∧ isReady (loadModels initManager (some step) msg).1 = false := by
  cases step <;> simp [loadModels, initManager, isReady]

/-- C5 counterexample: after a failed load the state is terminal (`error`
set, `isLoaded` false), yet a second `loadModels` call is not blocked by the
line-32 guard (`isInitialized` is still false): it publishes a snapshot with
`error` cleared and `progress` reset to 0 and reruns the load to completion,
clearing `error` in the final state as well. -/
theorem loadModels_retry_after_failure_cex :
    ((loadModels initManager (some .atWarmupGender) "boom").1.loadingState.error
        = some "boom")
    ∧ ((loadModels initManager (some .atWarmupGender) "boom").1.loadingState.isLoaded
        = false)
    ∧ ((loadModels (loadModels initManager (some .atWarmupGender) "boom").1 none "").2.head?
        = some { isLoading := true, isLoaded := false, error := none, progress := 0 })
    ∧ ((loadModels (loadModels initManager (some .atWarmupGender) "boom").1 none "").1.loadingState.error
        = none) := by
  decide

/-- C5 amended: only the successful terminal state is immutable.  Once
`isInitialized` is true (set together with `isLoaded`, lines 58-59), every
further `loadModels` call returns at the line-32 guard, leaving the state
unchanged and publishing nothing; after a failure, `isInitialized` is still
false and a retry mutates the state (see the counterexample). -/
theorem loadModels_noop_after_success (m : Manager) (fail : Option LoadFail)
    (msg : String) (h : m.isInitialized = true) :
    loadModels m fail msg = (m, []) := by
  simp [loadModels, h]

/-- Witness for the amended C5: a second call after a successful load is a
no-op. -/
theorem loadModels_noop_after_success_witness :
    loadModels (loadModels initManager none "").1 none ""
      = ((loadModels initManager none "").1, []) :=
  loadModels_noop_after_success (loadModels initManager none "").1 none ""
    (by decide)

/-- C6 counterexample: `midLoadManager` is the state observable while a load
from `initManager` is suspended at the line-53 warm-up await (`isLoading`
true, `progress` 90).  A reentrant `loadModels` call at that point is not a
no-op: the line-32 guard only checks `isInitialized`, so the second call
publishes a snapshot with `progress` reset to 0 and `error` cleared, and
reruns the loading steps. -/
theorem loadModels_reentrant_not_noop_cex :
    midLoadManager.loadingState.isLoading = true
    ∧ midLoadManager.loadingState.progress = 90
    ∧ (loadModels midLoadManager none "").2.head?
        = some { isLoading := true, isLoaded := false, error := none, progress := 0 }
    ∧ loadModels midLoadManager none "" ≠ (midLoadManager, []) := by
  decide

/-- C6 amended: `loadModels` is a no-op only when `isInitialized` is true.
Any call on a manager with `isInitialized = false` — including one whose
state is mid-load — immediately publishes a restarted snapshot: `isLoading`
true, `error` cleared, `progress` reset to 0, and performs the loading steps
again. -/
theorem loadModels_restarts_when_uninitialized (m : Manager)
    (fail : Option LoadFail) (msg : String) (h : m.isInitialized = false) :
    (loadModels m fail msg).2.head?
      = some { m.loadingState with isLoading := true, error := none, progress := 0 } := by
  rcases fail with _ | step
  · simp [loadModels, h]
  · cases step <;> simp [loadModels, h]

/-- Witness for the amended C6: a reentrant call on the mid-load manager
publishes the reset snapshot. -/
theorem loadModels_restarts_when_uninitialized_witness :
    (loadModels midLoadManager none "").2.head?
      = some { midLoadManager.loadingState with
                isLoading := true, error := none, progress := 0 } :=
  loadModels_restarts_when_uninitialized midLoadManager none "" (by decide)

end MLModels

namespace MLModels

/-- C9: whenever the registry is not ready (the guard on line 133 fails,
which includes the state after any failed load), `predict` throws the
not-loaded error and performs no computation: the buffer event trace is
empty, so no preprocessing happened and no forward pass was attempted. -/
theorem predict_not_ready_no_computation (m : Manager)
    (ageRaw maleProb femaleProb rand : ℚ) (fail : Option PredictFail)
    (cause : String) (h : isReady m = false) :
    predict m ageRaw maleProb femaleProb rand fail cause
      = (.error notLoadedMsg, []) := by
  simp [predict, h]

/-- Witness for C9: `predict` after a failed load (engine init failure)
throws the not-loaded error with an empty buffer trace. -/
theorem predict_not_ready_no_computation_witness :
    predict (loadModels initManager (some .atTfReady) "engine failure").1
        0 0 0 0 none ""
      = (.error notLoadedMsg, []) :=
  predict_not_ready_no_computation
    (loadModels initManager (some .atTfReady) "engine failure").1
    0 0 0 0 none "" (by decide)

/-- C7: every successful prediction returns as `age` the raw age-model scalar
mapped through `clamp(raw * 100 + 25, 0, 100)` (the spec's clamp) and then
rounded half-up, an integer in `[0, 100]`. -/
theorem predict_age_affine_clamp_round (m : Manager)
    (ageRaw maleProb femaleProb rand : ℚ) (h : isReady m = true) :
    ∃ pred, (predict m ageRaw maleProb femaleProb rand none "").1 = .ok pred
      ∧ pred.age = jsRound (clampSpec (ageRaw * 100 + 25) 0 100)
      ∧ 0 ≤ pred.age ∧ pred.age ≤ 100 := by
  refine ⟨{ age := jsRound (predictedAgeQ ageRaw),
            gender := predictedGenderOf maleProb femaleProb,
            ageConfidence := ageConfidenceOf rand,
            genderConfidence := genderConfidenceOf maleProb femaleProb },
          ?_, ?_, ?_, ?_⟩
  · simp [predict, h]
  · show jsRound (predictedAgeQ ageRaw) = jsRound (clampSpec (ageRaw * 100 + 25) 0 100)
    unfold predictedAgeQ clampSpec
    rw [min_comm]
  · show 0 ≤ jsRound (predictedAgeQ ageRaw)
    have hx : (0 : ℚ) ≤ predictedAgeQ ageRaw := le_max_left _ _
    unfold jsRound
    exact Int.le_floor.mpr (by push_cast; linarith)
  · show jsRound (predictedAgeQ ageRaw) ≤ 100
    have hx : predictedAgeQ ageRaw ≤ 100 :=
      max_le (by norm_num) (min_le_left _ _)
    have hlt : jsRound (predictedAgeQ ageRaw) < 101 := by
      unfold jsRound
      exact Int.floor_lt.mpr (by push_cast; linarith)
    omega

/-- Witness for C7. -/
theorem predict_age_affine_clamp_round_witness :
    ∃ pred, (predict (loadModels initManager none "").1 (1/2) 0 0 0 none "").1
        = .ok pred
      ∧ pred.age = jsRound (clampSpec ((1/2 : ℚ) * 100 + 25) 0 100)
      ∧ 0 ≤ pred.age ∧ pred.age ≤ 100 :=
  predict_age_affine_clamp_round (loadModels initManager none "").1
    (1/2) 0 0 0 (by decide)

/-- C8: every successful prediction labels the gender with a maximizer of the
probability 2-vector: the probability the model assigned to the returned
label equals `max maleProb femaleProb`, which is also the returned
`genderConfidence`. -/
theorem predict_gender_argmax (m : Manager)
    (ageRaw maleProb femaleProb rand : ℚ) (h : isReady m = true) :
    ∃ pred, (predict m ageRaw maleProb femaleProb rand none "").1 = .ok pred
      ∧ genderProbOf maleProb femaleProb pred.gender = max maleProb femaleProb
      ∧ pred.genderConfidence = max maleProb femaleProb := by
  refine ⟨{ age := jsRound (predictedAgeQ ageRaw),
            gender := predictedGenderOf maleProb femaleProb,
            ageConfidence := ageConfidenceOf rand,
            genderConfidence := genderConfidenceOf maleProb femaleProb },
          ?_, ?_, rfl⟩
  · simp [predict, h]
  · show genderProbOf maleProb femaleProb (predictedGenderOf maleProb femaleProb)
        = max maleProb femaleProb
    unfold predictedGenderOf
    by_cases hc : femaleProb < maleProb
    · simp only [gt_iff_lt, if_pos hc, genderProbOf]
      exact (max_eq_left hc.le).symm
    · simp only [gt_iff_lt, if_neg hc, genderProbOf]
      exact (max_eq_right (not_lt.mp hc)).symm

/-- Witness for C8. -/
theorem predict_gender_argmax_witness :
    ∃ pred, (predict (loadModels initManager none "").1 0 (1/4) (3/4) 0 none "").1
        = .ok pred
      ∧ genderProbOf (1/4) (3/4) pred.gender = max (1/4 : ℚ) (3/4)
      ∧ pred.genderConfidence = max (1/4 : ℚ) (3/4) :=
  predict_gender_argmax (loadModels initManager none "").1 0 (1/4) (3/4) 0
    (by decide)

/-- C10: when the two gender probabilities are exactly equal, the strict
comparison on line 151 (`maleProb > femaleProb`) is false, so the prediction
is `female` and the confidence is the shared probability. -/
theorem predict_gender_tie_female (m : Manager) (ageRaw p rand : ℚ)
    (h : isReady m = true) :
    ∃ pred, (predict m ageRaw p p rand none "").1 = .ok pred
      ∧ pred.gender = .female ∧ pred.genderConfidence = p := by
  refine ⟨{ age := jsRound (predictedAgeQ ageRaw),
            gender := predictedGenderOf p p,
            ageConfidence := ageConfidenceOf rand,
            genderConfidence := genderConfidenceOf p p },
          ?_, ?_, ?_⟩
  · simp [predict, h]
  · show predictedGenderOf p p = .female
    simp [predictedGenderOf]
  · show genderConfidenceOf p p = p
    simp [genderConfidenceOf]

/-- Witness for C10. -/
theorem predict_gender_tie_female_witness :
    ∃ pred, (predict (loadModels initManager none "").1 0 (1/2) (1/2) 0 none "").1
        = .ok pred
      ∧ pred.gender = .female ∧ pred.genderConfidence = (1/2 : ℚ) :=
  predict_gender_tie_female (loadModels initManager none "").1 0 (1/2) 0
    (by decide)

end MLModels

namespace ImageProcessor

/-- C3 counterexample: for a 3x2 input, the code draws a region of exact
fractional height `448/3` at exact fractional offset `112/3` (lines 69-74
never round), whereas the claim requires an integer region height
`round(h0*s) = 149` and integer padding split 37 leading / 38 trailing; and
the cleared canvas (line 65) is transparent (alpha 0), not opaque black. -/
theorem normalization_not_rounded_cex :
    scaledHeight 3 2 = 448/3
    ∧ MLModels.jsRound (scaledHeight 3 2) = 149
    ∧ scaledHeight 3 2 ≠ (149 : ℚ)
    ∧ offsetY 3 2 = 112/3
    ∧ offsetY 3 2 ≠ (37 : ℚ)
    ∧ offsetY 3 2 ≠ (38 : ℚ)
    ∧ clearedPixel.a = 0 := by
  refine ⟨?_, ?_, ?_, ?_, ?_, ?_, rfl⟩ <;>
    norm_num [scaledHeight, scaledWidth, scale, targetSize, offsetY,
      MLModels.jsRound]

/-- C3 amended: for every input of positive width and height, the code
computes the uniform scale `s = min(224/w0, 224/h0)` and draws the image into
a region of exact (possibly fractional, never rounded) dimensions
`w0*s x h0*s`, centered exactly on the 224x224 canvas with the leading and
trailing padding equal (no off-by-one trailing bias); the region fits inside
the canvas, the larger dimension fills it exactly, and the untouched canvas
area is cleared to transparent black (all four RGBA channels zero, alpha
included), not opaque black. -/
theorem normalization_exact_centering (w0 h0 : ℚ) (hw : 0 < w0)
    (hh : 0 < h0) :
    targetSize = 224
    ∧ scale w0 h0 = min (targetSize / w0) (targetSize / h0)
    ∧ 0 ≤ offsetX w0 h0
    ∧ 0 ≤ offsetY w0 h0
    ∧ offsetX w0 h0 + scaledWidth w0 h0 + offsetX w0 h0 = targetSize
    ∧ offsetY w0 h0 + scaledHeight w0 h0 + offsetY w0 h0 = targetSize
    ∧ max (scaledWidth w0 h0) (scaledHeight w0 h0) = targetSize
    ∧ clearedPixel = { r := 0, g := 0, b := 0, a := 0 } := by
  have hsw : scaledWidth w0 h0 ≤ 224 := by
    unfold scaledWidth scale targetSize
    calc w0 * min (224 / w0) (224 / h0) ≤ w0 * (224 / w0) :=
          mul_le_mul_of_nonneg_left (min_le_left _ _) hw.le
      _ = 224 := by field_simp
  have hsh : scaledHeight w0 h0 ≤ 224 := by
    unfold scaledHeight scale targetSize
    calc h0 * min (224 / w0) (224 / h0) ≤ h0 * (224 / h0) :=
          mul_le_mul_of_nonneg_left (min_le_right _ _) hh.le
      _ = 224 := by field_simp
  refine ⟨rfl, rfl, ?_, ?_, ?_, ?_, ?_, rfl⟩
  · unfold offsetX targetSize
    linarith
  · unfold offsetY targetSize
    linarith
  · unfold offsetX
    ring
  · unfold offsetY
    ring
  · rcases le_total (224 / w0 : ℚ) (224 / h0) with hc | hc
    · have h1 : scaledWidth w0 h0 = 224 := by
        unfold scaledWidth scale targetSize
        rw [min_eq_left hc]
        field_simp
      show max (scaledWidth w0 h0) (scaledHeight w0 h0) = targetSize
      rw [h1]
      unfold targetSize
      exact max_eq_left hsh
    · have h1 : scaledHeight w0 h0 = 224 := by
        unfold scaledHeight scale targetSize
        rw [min_eq_right hc]
        field_simp
      show max (scaledWidth w0 h0) (scaledHeight w0 h0) = targetSize
      rw [h1]
      unfold targetSize
      exact max_eq_right hsw

/-- Witness for the amended C3 at the spec's own end-to-end example, a
400x200 input: scale 0.56, scaled size exactly 224x112, vertical padding
exactly 56 on each side. -/
theorem normalization_exact_centering_witness :
    targetSize = 224
    ∧ scale 400 200 = min (targetSize / 400) (targetSize / 200)
    ∧ 0 ≤ offsetX 400 200
    ∧ 0 ≤ offsetY 400 200
    ∧ offsetX 400 200 + scaledWidth 400 200 + offsetX 400 200 = targetSize
    ∧ offsetY 400 200 + scaledHeight 400 200 + offsetY 400 200 = targetSize
    ∧ max (scaledWidth 400 200) (scaledHeight 400 200) = targetSize
    ∧ clearedPixel = { r := 0, g := 0, b := 0, a := 0 } :=
  normalization_exact_centering 400 200 (by norm_num) (by norm_num)

end ImageProcessor
